import Mathlib

/-!
Verification of the jettypod-ed scrollytelling choreography engine.

The definitions below are a shallow embedding of the repository's
JavaScript source:
* `scroll-timing.js` (src/unnamed/part_009): the timing calculus —
  `SCROLL_TIMING`, `calculateSectionHeight`, `calculateCardThreshold`,
  `calculateFadeZones`;
* `section-builder.js` (src/unnamed/part_004): the schema validator
  `validateSchema` and the scroll visibility controller
  `setupScrollBehavior` / `updateSectionOpacity`;
* `hero-overlap-validator.js` (src/unnamed/part_007): `parsePosition`,
  `calculateHeroBounds`, `calculateImageBounds`, `boxesOverlap`,
  `validateHeroOverlap`.

JavaScript numbers are modelled by exact rationals (`ℚ`); `Math.ceil`
is `Int.ceil`, `Math.round` is Mathlib's `round` (both agree with the
JS semantics `⌊x + 1/2⌋` on rationals).  Optional / possibly-absent
object fields are modelled with `Option`.  Validation error and warning
message strings are modelled by inductive types with one constructor
per `push` site in the source, carrying exactly the data interpolated
into the corresponding message.
-/

namespace Jettypod

/-- The `SCROLL_TIMING` constant table of scroll-timing.js:
all values in viewport-height (vh) units. -/
structure ScrollTiming where
  PANEL_READING_HOLD : ℚ
  CARD_READING_HOLD : ℚ
  CARD_FADE_DISTANCE : ℚ
  PANEL_FADE_IN : ℚ
  PANEL_FADE_OUT : ℚ
  GREY_SPACE_BETWEEN : ℚ
  LAST_PANEL_EXTRA_HOLD : ℚ

/-- The concrete timing table from scroll-timing.js. -/
def SCROLL_TIMING : ScrollTiming where
  PANEL_READING_HOLD := 1.2
  CARD_READING_HOLD := 0.2
  CARD_FADE_DISTANCE := 0.08
  PANEL_FADE_IN := 0.3
  PANEL_FADE_OUT := 0.3
  GREY_SPACE_BETWEEN := 0.75
  LAST_PANEL_EXTRA_HOLD := 0.2

/-- The `for (let i = 0; i < cardCount; i++)` loop in
`calculateSectionHeight`: each iteration adds `CARD_FADE_DISTANCE`
and then `CARD_READING_HOLD` to the accumulated hold time. -/
def cardHoldLoop (T : ScrollTiming) : ℕ → ℚ → ℚ
  | 0, holdTime => holdTime
  | n + 1, holdTime =>
      cardHoldLoop T n (holdTime + T.CARD_FADE_DISTANCE + T.CARD_READING_HOLD)

/-- Embeds `calculateSectionHeight({cardCount, isLastSection, fadeZone})` from
scroll-timing.js: hold time starts at `PANEL_READING_HOLD`, the card
loop adds fade and reading time per card, the last section adds
`LAST_PANEL_EXTRA_HOLD`, and the total
`2 * fadeZone + GREY_SPACE_BETWEEN + holdTime` is converted to whole
vh with `Math.ceil(totalHeight * 100)`. -/
def calculateSectionHeight (cardCount : ℕ) (isLastSection : Bool)
    (fadeZone : ℚ) : ℤ :=
  let T := SCROLL_TIMING
  let holdTime := T.PANEL_READING_HOLD
  let holdTime := if 0 < cardCount then cardHoldLoop T cardCount holdTime else holdTime
  let holdTime := if isLastSection then holdTime + T.LAST_PANEL_EXTRA_HOLD else holdTime
  let totalHeight := (2 * fadeZone) + T.GREY_SPACE_BETWEEN + holdTime
  ⌈totalHeight * 100⌉

/-- Result record of `calculateCardThreshold`:
`{ threshold, fadeDistance }`, both in rounded pixels. -/
structure CardThreshold where
  threshold : ℤ
  fadeDistance : ℤ

/-- Embeds `calculateCardThreshold(windowHeight, cardIndex)` from
scroll-timing.js: the first card appears after the main panel reading
hold, each later card adds `(CARD_FADE_DISTANCE + CARD_READING_HOLD)`
per preceding card, and both results go through `Math.round`. -/
def calculateCardThreshold (windowHeight : ℚ) (cardIndex : ℕ) : CardThreshold :=
  let T := SCROLL_TIMING
  let pixelThreshold := windowHeight * T.PANEL_READING_HOLD
  let pixelThreshold :=
    if 0 < cardIndex then
      pixelThreshold +
        windowHeight * ((T.CARD_FADE_DISTANCE + T.CARD_READING_HOLD) * cardIndex)
    else pixelThreshold
  ⟨round pixelThreshold, round (windowHeight * T.CARD_FADE_DISTANCE)⟩

/-- The exact (pre-rounding) pixel threshold of card `cardIndex`:
`windowHeight * (PANEL_READING_HOLD + (CARD_FADE_DISTANCE + CARD_READING_HOLD) * cardIndex)`. -/
def exactCardThreshold (windowHeight : ℚ) (cardIndex : ℕ) : ℚ :=
  windowHeight * (SCROLL_TIMING.PANEL_READING_HOLD +
    (SCROLL_TIMING.CARD_FADE_DISTANCE + SCROLL_TIMING.CARD_READING_HOLD) * cardIndex)

/-- Result record of `calculateFadeZones`: `{ holdZone, fadeZone }` in pixels. -/
structure FadeZones where
  holdZone : ℚ
  fadeZone : ℚ

/-- Embeds `calculateFadeZones(windowHeight, cardCount)` from scroll-timing.js:
the hold zone accumulates `PANEL_READING_HOLD` plus the per-card
increments, and the fade zone is the hold zone plus `PANEL_FADE_OUT`. -/
def calculateFadeZones (windowHeight : ℚ) (cardCount : ℕ) : FadeZones :=
  let T := SCROLL_TIMING
  let holdZoneVh := T.PANEL_READING_HOLD
  let holdZoneVh :=
    if 0 < cardCount then
      holdZoneVh + (T.CARD_FADE_DISTANCE + T.CARD_READING_HOLD) * cardCount
    else holdZoneVh
  let fadeZoneVh := holdZoneVh + T.PANEL_FADE_OUT
  ⟨windowHeight * holdZoneVh, windowHeight * fadeZoneVh⟩

/-- The opacity chain of `updateSectionOpacity` (section-builder.js):
`let opacity = 0; if (distance < holdZone) opacity = 1;
else if (distance < sectionFadeZone)
  opacity = 1 - ((distance - holdZone) / (sectionFadeZone - holdZone));`. -/
def rawOpacity (distance holdZone sectionFadeZone : ℚ) : ℚ :=
  if distance < holdZone then 1
  else if distance < sectionFadeZone then
    1 - ((distance - holdZone) / (sectionFadeZone - holdZone))
  else 0

/-- Embeds `Math.max(0, Math.min(1, opacity))`, applied by the controller when
writing opacity to the section's elements. -/
def clampOpacity (opacity : ℚ) : ℚ := max 0 (min 1 opacity)

/-- Embeds `Math.abs(sectionCenter - viewportCenter)` where
`sectionCenter = rect.top + rect.height / 2` and
`viewportCenter = windowHeight / 2`. -/
def sectionDistance (rectTop rectHeight windowHeight : ℚ) : ℚ :=
  |rectTop + rectHeight / 2 - windowHeight / 2|

/-- The per-section, per-tick opacity computed by `updateSectionOpacity`
inside `setupScrollBehavior(fadeZone)`.  The zones are resolved as in
the source: `sectionFadeZone = windowHeight * fadeZone` (the
`setupScrollBehavior` parameter, i.e. the global default) and
`holdZone = windowHeight * 0.4`; the section's declared
`scroll.fadeZone` is not consulted (the function has no section
parameter to consult). -/
def sectionOpacity (fadeZone windowHeight rectTop rectHeight : ℚ) : ℚ :=
  let distance := sectionDistance rectTop rectHeight windowHeight
  let sectionFadeZone := windowHeight * fadeZone
  let holdZone := windowHeight * 0.4
  rawOpacity distance holdZone sectionFadeZone

/-- One tick of the challenge-cards branch of `updateSectionOpacity`
for a `challenge-cards` visual container: given the current sticky
`dataset.animationTriggered` flag and the section's computed opacity,
returns the flag after the tick and whether the card animation
sequence was fired this tick (`section-active` added).  Mirrors the
source order: the trigger branch runs first and sets the flag, then
the reset branch reads the updated flag. -/
def cardSequenceStep (animationTriggered : Bool) (opacity : ℚ) : Bool × Bool :=
  let fired := decide (1 ≤ opacity) && !animationTriggered
  let flagAfterTrigger := if fired then true else animationTriggered
  let flagAfterReset :=
    if decide (opacity < 0.5) && flagAfterTrigger then false else flagAfterTrigger
  (flagAfterReset, fired)

/-- Number of times the card sequence fires over a trace of per-tick
section opacities, starting from a given sticky-flag state. -/
def runCardSequence (animationTriggered : Bool) : List ℚ → ℕ
  | [] => 0
  | opacity :: rest =>
      let s := cardSequenceStep animationTriggered opacity
      (if s.2 then 1 else 0) + runCardSequence s.1 rest

/-- A CSS length/position literal as consumed by `parsePosition`:
percentage, pixel, viewport-height, viewport-width, or a bare number. -/
inductive CSSValue where
  | pct (v : ℚ)
  | px (v : ℚ)
  | vh (v : ℚ)
  | vw (v : ℚ)
  | plain (v : ℚ)
deriving DecidableEq

/-- The four optional edge offsets of an image layer's `position`. -/
structure PositionSpec where
  top : Option CSSValue
  left : Option CSSValue
  right : Option CSSValue
  bottom : Option CSSValue
deriving DecidableEq

/-- An image layer's optional `size` declaration. -/
structure SizeSpec where
  width : Option CSSValue
  height : Option CSSValue
deriving DecidableEq

/-- The `fontSize` of a hero config as consumed by the overlap
validator's estimator: either a `clamp(...)` expression whose middle
term parses (by `parseFloat`) to `vwValue`, or any other value (for
which the estimate stays at the 80px default). -/
inductive HeroFontSize where
  | clampMid (vwValue : ℚ)
  | plain
deriving DecidableEq

/-- Embeds `HeroConfig`: hero text (may contain `<br>` line breaks), an
optional alignment style, and an optional font-size override. -/
structure HeroConfig where
  text : String
  style : Option String
  fontSize : Option HeroFontSize
deriving DecidableEq

/-- A schema `Layer` as a JS object: the `type` tag is an arbitrary
string (the validator must reject unknown ones) and every other field
may be absent. -/
structure Layer where
  type : String
  z : Option ℚ
  src : Option String
  renderer : Option String
  position : Option PositionSpec
  size : Option SizeSpec
deriving DecidableEq

/-- A section's `ScrollConfig` (declared height string and fade-zone
fraction); stored in the schema but, as proved below, not consulted by
the runtime opacity computation. -/
structure ScrollConfig where
  height : Option String
  fadeZone : Option ℚ
deriving DecidableEq

/-- A schema `Section`; each field can be absent in a malformed scene. -/
structure Section where
  id : Option String
  hero : Option HeroConfig
  layers : Option (List Layer)
  scroll : Option ScrollConfig
deriving DecidableEq

/-- A `SectionSchema`; `sections` is `none` when the `sections` field
is missing or not an array. -/
structure SectionSchema where
  sections : Option (List Section)
deriving DecidableEq

/-- JS falsiness of an optional string field: absent or empty. -/
def falsyStr : Option String → Bool
  | none => true
  | some s => s.isEmpty

/-- JS falsiness of `section.hero?.text`. -/
def heroTextFalsy : Option HeroConfig → Bool
  | none => true
  | some h => h.text.isEmpty

/-- One constructor per `errors.push` site of `validateSchema`
(section-builder.js), carrying exactly the data interpolated into the
corresponding message string. -/
inductive SchemaError where
  | missingSectionsArray
  | missingId (sectionIdx : ℕ)
  | missingHeroConfig (sectionIdx : ℕ)
  | heroMissingText (sectionIdx : ℕ)
  | missingLayersArray (sectionIdx : ℕ)
  | zIndexExceedsMax (sectionIdx layerIdx : ℕ) (z : ℚ)
  | invalidLayerType (sectionIdx layerIdx : ℕ) (t : String)
  | imageMissingSrc (sectionIdx layerIdx : ℕ)
  | customMissingRenderer (sectionIdx layerIdx : ℕ)
deriving DecidableEq

/-- Whether a layer trips the depth-ceiling check `layer.z > 50`
(false when `z` is absent, as `undefined > 50` is false in JS). -/
def layerZBad (layer : Layer) : Bool :=
  match layer.z with
  | some z => decide (50 < z)
  | none => false

/-- The per-layer body of `validateSchema`'s inner `forEach`:
depth-ceiling check, layer-type check, and the type-specific `src` /
`renderer` checks, in source order. -/
def validateLayer (sectionIdx layerIdx : ℕ) (layer : Layer) : List SchemaError :=
  (if layerZBad layer then
      [.zIndexExceedsMax sectionIdx layerIdx ((layer.z).getD 0)]
    else []) ++
  (if layer.type == "background" || layer.type == "image" || layer.type == "custom"
    then [] else [.invalidLayerType sectionIdx layerIdx layer.type]) ++
  (if layer.type == "image" && falsyStr layer.src then
      [.imageMissingSrc sectionIdx layerIdx]
    else []) ++
  (if layer.type == "custom" && falsyStr layer.renderer then
      [.customMissingRenderer sectionIdx layerIdx]
    else [])

/-- Embeds `section.layers?.forEach((layer, layerIdx) => ...)` starting at a
given layer index. -/
def validateLayers (sectionIdx : ℕ) : ℕ → List Layer → List SchemaError
  | _, [] => []
  | layerIdx, layer :: rest =>
      validateLayer sectionIdx layerIdx layer ++
        validateLayers sectionIdx (layerIdx + 1) rest

/-- The per-section body of `validateSchema`'s outer `forEach`:
required-field checks followed by the per-layer checks. -/
def validateSection (sectionIdx : ℕ) (s : Section) : List SchemaError :=
  (if falsyStr s.id then [.missingId sectionIdx] else []) ++
  (if s.hero.isNone then [.missingHeroConfig sectionIdx] else []) ++
  (if heroTextFalsy s.hero then [.heroMissingText sectionIdx] else []) ++
  (if s.layers.isNone then [.missingLayersArray sectionIdx] else []) ++
  (match s.layers with
    | some layers => validateLayers sectionIdx 0 layers
    | none => [])

/-- Embeds `schema.sections.forEach((section, idx) => ...)` starting at a
given section index. -/
def validateSections : ℕ → List Section → List SchemaError
  | _, [] => []
  | sectionIdx, s :: rest =>
      validateSection sectionIdx s ++ validateSections (sectionIdx + 1) rest

/-- The `{valid, errors}` record returned by `validateSchema`. -/
structure ValidationResult where
  valid : Bool
  errors : List SchemaError
deriving DecidableEq

/-- Embeds `validateSchema(schema)` from section-builder.js: an early hard
failure when the `sections` array is missing, otherwise all per-section
and per-layer errors are collected and `valid` is `errors.length === 0`. -/
def validateSchema (schema : SectionSchema) : ValidationResult :=
  match schema.sections with
  | none => ⟨false, [.missingSectionsArray]⟩
  | some sections =>
      let errors := validateSections 0 sections
      ⟨errors.isEmpty, errors⟩

/-- Whether an error is the depth-ceiling error for section `i`,
layer `j`. -/
def isZErrorAt (i j : ℕ) : SchemaError → Bool
  | .zIndexExceedsMax a b _ => a == i && b == j
  | _ => false

/-- How many depth-ceiling errors for section `i`, layer `j` a list of
errors contains. -/
def countZErrors (i j : ℕ) (errors : List SchemaError) : ℕ :=
  (errors.filter (isZErrorAt i j)).length

/-- The layer stored at section index `i`, layer index `j` of a scene. -/
def layerAt (sections : List Section) (i j : ℕ) : Option Layer :=
  match sections.get? i with
  | some s =>
      match s.layers with
      | some layers => layers.get? j
      | none => none
  | none => none

/-- Whether the scene has a depth-ceiling violation at section `i`,
layer `j`. -/
def badZAt (sections : List Section) (i j : ℕ) : Bool :=
  match layerAt sections i j with
  | some layer => layerZBad layer
  | none => false

/-- A minimal well-formed one-section scene whose only layer has `z`
over the ceiling. -/
def demoBadLayer : Layer := ⟨"background", some 60, none, none, none, none⟩

/-- The section list of the over-ceiling demo scene. -/
def demoBadSections : List Section :=
  [⟨some ("section-00"), some ⟨"Hello", some ("center"), none⟩, some [demoBadLayer], none⟩]

/-- The over-ceiling demo scene. -/
def demoBadSchema : SectionSchema := ⟨some demoBadSections⟩

/-- A background layer declaring no `z` at all. -/
def noDepthLayer : Layer := ⟨"background", none, none, none, none, none⟩

/-- The section list of a well-formed scene whose layer omits `z`. -/
def noDepthSections : List Section :=
  [⟨some ("intro"), some ⟨"Hello<br>world", some ("center"), none⟩, some [noDepthLayer],
    some ⟨some ("250vh"), some 0.7⟩⟩]

/-- A well-formed scene whose only layer omits `z`. -/
def noDepthSchema : SectionSchema := ⟨some noDepthSections⟩

/-- The browser viewport (`window.innerWidth` / `window.innerHeight`)
read by the overlap validator. -/
structure Viewport where
  innerWidth : ℚ
  innerHeight : ℚ
deriving DecidableEq

/-- Embeds `parsePosition(value, containerSize)` from hero-overlap-validator.js:
percentages resolve against the given container dimension, `px` and
bare numbers pass through, `vh`/`vw` resolve against the viewport. -/
def parsePosition (w : Viewport) (value : CSSValue) (containerSize : ℚ) : ℚ :=
  match value with
  | .pct v => (v / 100) * containerSize
  | .px v => v
  | .vh v => (v / 100) * w.innerHeight
  | .vw v => (v / 100) * w.innerWidth
  | .plain v => v

/-- An axis-aligned bounding box in device pixels:
`{top, left, bottom, right, width, height}`. -/
structure Box where
  top : ℚ
  left : ℚ
  bottom : ℚ
  right : ℚ
  width : ℚ
  height : ℚ
deriving DecidableEq

/-- The number of non-overlapping `<br>` occurrences in the hero text
(`heroConfig.text.match(/<br>/g) || []).length`), consuming matched
text left to right as the regex does. -/
def countBr : List Char → ℕ
  | '<' :: 'b' :: 'r' :: '>' :: rest => countBr rest + 1
  | _ :: rest => countBr rest
  | [] => 0

/-- Embeds `lineCount`: `<br>` count plus one. -/
def lineCount (text : String) : ℕ := countBr text.data + 1

/-- The font-size estimate of `calculateHeroBounds`: 80px by default;
for a `clamp(...)` font size whose middle term parses to `vwValue`,
`viewportWidth * vwValue / 100`.  A missing (or empty) `fontSize`
falls back to the default `clamp(2.5rem, 6vw, 5rem)`. -/
def estimatedFontSize (w : Viewport) (fontSize : Option HeroFontSize) : ℚ :=
  match fontSize.getD (.clampMid 6) with
  | .clampMid vwValue => (w.innerWidth * vwValue) / 100
  | .plain => 80

/-- Embeds `calculateHeroBounds(heroConfig)` from hero-overlap-validator.js:
the hero container is centered in the viewport with max width 1000px
and 40px padding, and its height is estimated from the line count and
a 1.2 line-height factor over the estimated font size. -/
def calculateHeroBounds (w : Viewport) (heroConfig : HeroConfig) : Box :=
  let maxWidth : ℚ := 1000
  let padding : ℚ := 40
  let fontSizePx := estimatedFontSize w heroConfig.fontSize
  let lineHeight := fontSizePx * 1.2
  let estimatedHeight := (lineCount heroConfig.text : ℚ) * lineHeight
  let containerWidth := min (maxWidth + padding * 2) w.innerWidth
  let containerHeight := estimatedHeight + padding * 2
  ⟨w.innerHeight / 2 - containerHeight / 2,
   w.innerWidth / 2 - containerWidth / 2,
   w.innerHeight / 2 + containerHeight / 2,
   w.innerWidth / 2 + containerWidth / 2,
   containerWidth, containerHeight⟩

/-- Embeds `calculateImageBounds(layer)` from hero-overlap-validator.js: each
declared edge offset is resolved to pixels; `bottom` (resolved against
the viewport bottom) overwrites a `top`-derived vertical pair, and
`right` overwrites a `left`-derived horizontal pair, exactly as the
source's sequential assignments do; missing sizes default to 100px.
Returns `none` — the source's `null` — unless both a vertical and a
horizontal edge were resolvable. -/
def calculateImageBounds (w : Viewport) (position : PositionSpec)
    (size : Option SizeSpec) : Option Box :=
  let top := position.top.map (fun v => parsePosition w v w.innerHeight)
  let left := position.left.map (fun v => parsePosition w v w.innerWidth)
  let right := position.right.map (fun v => parsePosition w v w.innerWidth)
  let bottom := position.bottom.map (fun v => parsePosition w v w.innerHeight)
  let width := match size.bind SizeSpec.width with
    | some v => parsePosition w v w.innerWidth
    | none => 100
  let height := match size.bind SizeSpec.height with
    | some v => parsePosition w v w.innerHeight
    | none => 100
  let vertical : Option (ℚ × ℚ) :=
    match bottom with
    | some b => some (w.innerHeight - b - height, w.innerHeight - b)
    | none =>
        match top with
        | some t => some (t, t + height)
        | none => none
  let horizontal : Option (ℚ × ℚ) :=
    match right with
    | some r => some (w.innerWidth - r - width, w.innerWidth - r)
    | none =>
        match left with
        | some l => some (l, l + width)
        | none => none
  match vertical, horizontal with
  | some (t, b), some (l, r) => some ⟨t, l, b, r, width, height⟩
  | _, _ => none

/-- Embeds `boxesOverlap(box1, box2)` from hero-overlap-validator.js. -/
def boxesOverlap (box1 box2 : Box) : Bool :=
  !(decide (box1.right < box2.left) || decide (box1.left > box2.right) ||
    decide (box1.bottom < box2.top) || decide (box1.top > box2.bottom))

/-- One constructor per `warnings.push` site of `validateHeroOverlap`,
carrying the data interpolated into the message. -/
inductive OverlapWarning where
  | heroOverlap (layerIdx : ℕ) (src : Option String) (heroBounds imageBounds : Box)
  | customUnchecked (layerIdx : ℕ) (renderer : Option String)
deriving DecidableEq

/-- The per-layer body of `validateHeroOverlap`'s `forEach`: positioned
image layers are geometry-checked against the hero bounds; custom
layers always get an advisory warning. -/
def layerWarnings (w : Viewport) (heroBounds : Box) (idx : ℕ)
    (layer : Layer) : List OverlapWarning :=
  (if layer.type == "image" then
    match layer.position with
    | some position =>
        match calculateImageBounds w position layer.size with
        | some imageBounds =>
            if boxesOverlap heroBounds imageBounds then
              [.heroOverlap idx layer.src heroBounds imageBounds]
            else []
        | none => []
    | none => []
  else []) ++
  (if layer.type == "custom" then [.customUnchecked idx layer.renderer] else [])

/-- Embeds `section.layers.forEach((layer, idx) => ...)` starting at a given
layer index. -/
def sectionWarnings (w : Viewport) (heroBounds : Box) :
    ℕ → List Layer → List OverlapWarning
  | _, [] => []
  | idx, layer :: rest =>
      layerWarnings w heroBounds idx layer ++
        sectionWarnings w heroBounds (idx + 1) rest

/-- Embeds `validateHeroOverlap(section)` from hero-overlap-validator.js;
`none` models the exception the source would throw when `section.hero`
or `section.layers` is absent (it dereferences both unconditionally). -/
def validateHeroOverlap (w : Viewport) (s : Section) :
    Option (Bool × List OverlapWarning) :=
  match s.hero, s.layers with
  | some hero, some layers =>
      let warnings := sectionWarnings w (calculateHeroBounds w hero) 0 layers
      some (warnings.isEmpty, warnings)
  | _, _ => none

/-- Whether a warning is the overlap warning for layer index `i`. -/
def isOverlapWarningAt (i : ℕ) : OverlapWarning → Bool
  | .heroOverlap idx _ _ _ => idx == i
  | _ => false

/-- How many overlap warnings for layer index `i` a warning list holds. -/
def countOverlapWarnings (i : ℕ) (warnings : List OverlapWarning) : ℕ :=
  (warnings.filter (isOverlapWarningAt i)).length

/-- Whether the overlap check fires for a layer: it is an image, its
position is present, its bounds are resolvable, and the derived box
intersects the hero bounds. -/
def overlapFires (w : Viewport) (heroBounds : Box) (layer : Layer) : Bool :=
  layer.type == "image" &&
    (match layer.position with
      | some position =>
          (match calculateImageBounds w position layer.size with
            | some imageBounds => boxesOverlap heroBounds imageBounds
            | none => false)
      | none => false)

/-- A concrete hero config for exercising the overlap detector. -/
def demoHero : HeroConfig := ⟨"Hello", some ("center"), none⟩

/-- A concrete image position: `top: 40%, left: 50%`. -/
def demoPosition : PositionSpec := ⟨some (.pct 40), some (.pct 50), none, none⟩

/-- A concrete image size: `width: 25vw` with unspecified height. -/
def demoSize : SizeSpec := ⟨some (.vw 25), none⟩

/-- The layers of the overlap demo section: one viewport-centered image. -/
def demoOverlapLayers : List Layer :=
  [⟨"image", some 1, some ("ship-images/paper-ship-square.png"), none,
    some demoPosition, some demoSize⟩]

/-- The overlap demo section. -/
def demoOverlapSection : Section :=
  ⟨some ("section-00"), some demoHero, some demoOverlapLayers, none⟩

/-- A 1000×800 viewport for the demos. -/
def demoViewport : Viewport := ⟨1000, 800⟩

theorem cardHoldLoop_eq (T : ScrollTiming) (n : ℕ) (holdTime : ℚ) :
    cardHoldLoop T n holdTime =
      holdTime + n * (T.CARD_FADE_DISTANCE + T.CARD_READING_HOLD) := by
  induction n generalizing holdTime with
  | zero => simp [cardHoldLoop]
  | succ k ih =>
      rw [cardHoldLoop, ih]
      push_cast
      ring

/-- Claim C6: for all `cardCount`, `isLastSection` and `fadeZone`,
`calculateSectionHeight` returns the ceiling of
`(2 * fadeZone + GREY_SPACE_BETWEEN + holdTime) * 100` in whole vh,
where `holdTime` is `PANEL_READING_HOLD` plus
`CARD_FADE_DISTANCE + CARD_READING_HOLD` for each card, plus
`LAST_PANEL_EXTRA_HOLD` exactly when `isLastSection` is true. -/
theorem calculateSectionHeight_closed_form (cardCount : ℕ) (isLastSection : Bool)
    (fadeZone : ℚ) :
    calculateSectionHeight cardCount isLastSection fadeZone =
      ⌈(2 * fadeZone + SCROLL_TIMING.GREY_SPACE_BETWEEN +
        (SCROLL_TIMING.PANEL_READING_HOLD +
          cardCount * (SCROLL_TIMING.CARD_FADE_DISTANCE + SCROLL_TIMING.CARD_READING_HOLD) +
          (if isLastSection then SCROLL_TIMING.LAST_PANEL_EXTRA_HOLD else 0))) * 100⌉ := by
  unfold calculateSectionHeight
  by_cases h : 0 < cardCount
  · cases isLastSection <;> simp [h, cardHoldLoop_eq]
  · have h0 : cardCount = 0 := by omega
    subst h0
    cases isLastSection <;> simp

/-- Claim C3: for every `cardCount` and every viewport height
`windowHeight > 0`, `calculateFadeZones` returns a `fadeZone` strictly
greater than its `holdZone`. -/
theorem calculateFadeZones_holdZone_lt_fadeZone (windowHeight : ℚ) (cardCount : ℕ)
    (hw : 0 < windowHeight) :
    (calculateFadeZones windowHeight cardCount).holdZone <
      (calculateFadeZones windowHeight cardCount).fadeZone := by
  unfold calculateFadeZones
  by_cases h : 0 < cardCount <;>
    · simp only [h, if_true, if_false, reduceIte]
      apply mul_lt_mul_of_pos_left _ hw
      simp [SCROLL_TIMING]
      norm_num

/-- Witness for C3 at `windowHeight = 1000`, `cardCount = 3`. -/
theorem calculateFadeZones_holdZone_lt_fadeZone_witness :
    (0 : ℚ) < 1000 ∧
      (calculateFadeZones 1000 3).holdZone < (calculateFadeZones 1000 3).fadeZone :=
  ⟨by norm_num, calculateFadeZones_holdZone_lt_fadeZone 1000 3 (by norm_num)⟩

/-- Counterexample to claim C7 as stated: at viewport height 1 (which
satisfies `windowHeight > 0`), the returned rounded thresholds of cards
0, 1, 2 are 1, 1, 2 — neither strictly increasing nor evenly spaced. -/
theorem calculateCardThreshold_counterexample :
    (0 : ℚ) < 1 ∧
    (calculateCardThreshold 1 0).threshold = 1 ∧
    (calculateCardThreshold 1 1).threshold = 1 ∧
    (calculateCardThreshold 1 2).threshold = 2 := by
  refine ⟨by norm_num, ?_, ?_, ?_⟩ <;>
    norm_num [calculateCardThreshold, SCROLL_TIMING, round_eq, Int.floor_eq_iff]

/-- Claim C7 (amended): `calculateCardThreshold` gives card `i` the
threshold `round (exactCardThreshold windowHeight i)` where
`exactCardThreshold windowHeight i
  = windowHeight * (PANEL_READING_HOLD + (CARD_FADE_DISTANCE + CARD_READING_HOLD) * i)`;
the exact (pre-rounding) thresholds are evenly spaced with gap
`windowHeight * (CARD_FADE_DISTANCE + CARD_READING_HOLD)` and strictly
increasing for every `windowHeight > 0`; the returned rounded
thresholds are strictly increasing whenever that gap is at least one
pixel. -/
theorem calculateCardThreshold_spacing (windowHeight : ℚ) (cardIndex : ℕ)
    (hw : 0 < windowHeight) :
    (calculateCardThreshold windowHeight cardIndex).threshold =
        round (exactCardThreshold windowHeight cardIndex) ∧
    exactCardThreshold windowHeight (cardIndex + 1) -
        exactCardThreshold windowHeight cardIndex =
      windowHeight * (SCROLL_TIMING.CARD_FADE_DISTANCE + SCROLL_TIMING.CARD_READING_HOLD) ∧
    exactCardThreshold windowHeight cardIndex <
        exactCardThreshold windowHeight (cardIndex + 1) ∧
    (1 ≤ windowHeight * (SCROLL_TIMING.CARD_FADE_DISTANCE + SCROLL_TIMING.CARD_READING_HOLD) →
      (calculateCardThreshold windowHeight cardIndex).threshold <
        (calculateCardThreshold windowHeight (cardIndex + 1)).threshold) := by
  have hround : ∀ i : ℕ, (calculateCardThreshold windowHeight i).threshold =
      round (exactCardThreshold windowHeight i) := by
    intro i
    cases i with
    | zero => simp [calculateCardThreshold, exactCardThreshold]
    | succ k =>
        simp only [calculateCardThreshold, exactCardThreshold, Nat.succ_pos, if_true,
          reduceIte]
        congr 1
        push_cast
        ring
  have hgap : exactCardThreshold windowHeight (cardIndex + 1) -
      exactCardThreshold windowHeight cardIndex =
      windowHeight * (SCROLL_TIMING.CARD_FADE_DISTANCE + SCROLL_TIMING.CARD_READING_HOLD) := by
    unfold exactCardThreshold
    push_cast
    ring
  have hgappos : 0 < windowHeight *
      (SCROLL_TIMING.CARD_FADE_DISTANCE + SCROLL_TIMING.CARD_READING_HOLD) := by
    apply mul_pos hw
    norm_num [SCROLL_TIMING]
  refine ⟨hround cardIndex, hgap, by linarith, ?_⟩
  intro hone
  rw [hround cardIndex, hround (cardIndex + 1), round_eq, round_eq]
  have hle : exactCardThreshold windowHeight cardIndex + 1 / 2 + 1 ≤
      exactCardThreshold windowHeight (cardIndex + 1) + 1 / 2 := by linarith
  have hfloor : ⌊exactCardThreshold windowHeight cardIndex + 1 / 2⌋ + 1 ≤
      ⌊exactCardThreshold windowHeight (cardIndex + 1) + 1 / 2⌋ := by
    have h1 : (⌊exactCardThreshold windowHeight cardIndex + 1 / 2⌋ : ℚ) + 1 ≤
        exactCardThreshold windowHeight (cardIndex + 1) + 1 / 2 := by
      have := Int.floor_le (exactCardThreshold windowHeight cardIndex + 1 / 2)
      linarith
    exact_mod_cast Int.le_floor.mpr (by exact_mod_cast h1)
  omega

/-- Witness for the amended C7 at `windowHeight = 1000`, `cardIndex = 0`. -/
theorem calculateCardThreshold_spacing_witness :
    (0 : ℚ) < 1000 ∧
    (1 : ℚ) ≤ 1000 * (SCROLL_TIMING.CARD_FADE_DISTANCE + SCROLL_TIMING.CARD_READING_HOLD) ∧
    (calculateCardThreshold 1000 0).threshold < (calculateCardThreshold 1000 1).threshold :=
  ⟨by norm_num, by norm_num [SCROLL_TIMING],
    (calculateCardThreshold_spacing 1000 0 (by norm_num)).2.2.2
      (by norm_num [SCROLL_TIMING])⟩

/-- Claim C2: for resolved zones with `holdZone < fadeZone`, the
per-tick opacity is 1 below the hold zone, falls linearly as
`1 - (distance - holdZone) / (fadeZone - holdZone)` between the zones,
is 0 at and beyond the fade zone, and the applied value is clamped to
`[0, 1]`; in particular it is 1 at `distance = holdZone`, 0 at
`distance = fadeZone`, and 1/2 at the midpoint of the two zones. -/
theorem updateSectionOpacity_policy (holdZone fadeZone : ℚ)
    (hlt : holdZone < fadeZone) (distance : ℚ) :
    (distance < holdZone → rawOpacity distance holdZone fadeZone = 1) ∧
    (holdZone ≤ distance → distance < fadeZone →
      rawOpacity distance holdZone fadeZone =
        1 - (distance - holdZone) / (fadeZone - holdZone)) ∧
    (fadeZone ≤ distance → rawOpacity distance holdZone fadeZone = 0) ∧
    0 ≤ clampOpacity (rawOpacity distance holdZone fadeZone) ∧
    clampOpacity (rawOpacity distance holdZone fadeZone) ≤ 1 ∧
    rawOpacity holdZone holdZone fadeZone = 1 ∧
    rawOpacity fadeZone holdZone fadeZone = 0 ∧
    rawOpacity ((holdZone + fadeZone) / 2) holdZone fadeZone = 1 / 2 := by
  have hne : fadeZone - holdZone ≠ 0 := by linarith
  refine ⟨fun h => by simp [rawOpacity, h], ?_, ?_, ?_, ?_, ?_, ?_, ?_⟩
  · intro h1 h2
    simp [rawOpacity, not_lt.mpr h1, h2]
  · intro h
    have h1 : ¬distance < holdZone := by linarith
    have h2 : ¬distance < fadeZone := by linarith
    simp [rawOpacity, h1, h2]
  · unfold clampOpacity
    positivity
  · unfold clampOpacity
    exact le_trans (max_le (by norm_num) (min_le_left _ _)) (by norm_num)
  · simp [rawOpacity, hlt, lt_irrefl]
  · simp [rawOpacity, not_lt.mpr (le_of_lt hlt), lt_irrefl]
  · have hmid1 : ¬(holdZone + fadeZone) / 2 < holdZone := by push_neg; linarith
    have hmid2 : (holdZone + fadeZone) / 2 < fadeZone := by linarith
    simp only [rawOpacity, hmid1, if_false, hmid2, if_true, reduceIte]
    field_simp
    ring

/-- Witness for C2 with resolved zones 400 and 700 (viewport height
1000 with the default fade-zone fraction 0.7) at distance 550. -/
theorem updateSectionOpacity_policy_witness :
    (400 : ℚ) < 700 ∧
    (((550 : ℚ) < 400 → rawOpacity 550 400 700 = 1) ∧
    ((400 : ℚ) ≤ 550 → (550 : ℚ) < 700 →
      rawOpacity 550 400 700 = 1 - (550 - 400) / (700 - 400)) ∧
    ((700 : ℚ) ≤ 550 → rawOpacity 550 400 700 = 0) ∧
    0 ≤ clampOpacity (rawOpacity 550 400 700) ∧
    clampOpacity (rawOpacity 550 400 700) ≤ 1 ∧
    rawOpacity 400 400 700 = 1 ∧
    rawOpacity 700 400 700 = 0 ∧
    rawOpacity ((400 + 700) / 2) 400 700 = 1 / 2) :=
  ⟨by norm_num, updateSectionOpacity_policy 400 700 (by norm_num) 550⟩

/-- Claim C4 (code bug): the zones used by the opacity computation come
only from the global default `fadeZone` parameter and the fixed 0.4
hold proportion; the section's declared ScrollConfig is ignored.  At
viewport height 1000 with global default 0.7, a section with geometry
`rect.top = -200`, `rect.height = 2500` (distance 550 from the
viewport center) gets opacity 1/2, whereas zones resolved from that
section's declared `scroll.fadeZone = 0.5` — as the claim and the
source's own comment "Use section-specific fade zone or default"
describe — would give opacity 0. -/
theorem updateSectionOpacity_ignores_section_config :
    sectionOpacity 0.7 1000 (-200) 2500 = 1 / 2 ∧
    rawOpacity (sectionDistance (-200) 2500 1000) (1000 * 0.4) (1000 * 0.5) = 0 := by
  constructor
  · have hd : sectionDistance (-200) 2500 1000 = 550 := by
      norm_num [sectionDistance, abs_of_nonneg]
    simp only [sectionOpacity, hd]
    norm_num [rawOpacity]
  · have hd : sectionDistance (-200) 2500 1000 = 550 := by
      norm_num [sectionDistance, abs_of_nonneg]
    rw [hd]
    norm_num [rawOpacity]

/-- Counterexample to claim C5 as stated: the card-reveal trigger does
not wait for any per-card pixel threshold.  With viewport height 1000,
global default fade zone 0.7, and a 2500px-tall section centered in
the viewport (`rect.top = -750`), the scroll distance into the section
is 750px, below even card 0's reveal threshold of 1200px from
`calculateCardThreshold`; yet the section's opacity is 1 and the whole
card sequence fires on this tick (a single per-section flag, not a
per-card one, is set). -/
theorem cardSequence_fires_below_threshold :
    sectionOpacity 0.7 1000 (-750) 2500 = 1 ∧
    (cardSequenceStep false (sectionOpacity 0.7 1000 (-750) 2500)).2 = true ∧
    (750 : ℚ) < ((calculateCardThreshold 1000 0).threshold : ℚ) := by
  have hop : sectionOpacity 0.7 1000 (-750) 2500 = 1 := by
    have hd : sectionDistance (-750) 2500 1000 = 0 := by
      norm_num [sectionDistance]
    simp only [sectionOpacity, hd]
    norm_num [rawOpacity]
  refine ⟨hop, ?_, ?_⟩
  · rw [hop]
    simp [cardSequenceStep]
  · have ht : (calculateCardThreshold 1000 0).threshold = 1200 := by
      norm_num [calculateCardThreshold, SCROLL_TIMING, round_eq, Int.floor_eq_iff]
    rw [ht]
    norm_num

theorem runCardSequence_of_triggered (trace : List ℚ)
    (hhalf : ∀ o ∈ trace, 1 / 2 ≤ o) :
    runCardSequence true trace = 0 := by
  induction trace with
  | nil => rfl
  | cons o rest ih =>
      have ho : (1 : ℚ) / 2 ≤ o := hhalf o (List.mem_cons_self o rest)
      have hno : ¬ o < (0.5 : ℚ) := by
        rw [show (0.5 : ℚ) = 1 / 2 by norm_num]
        exact not_lt.mpr ho
      have hstep : cardSequenceStep true o = (true, false) := by
        simp [cardSequenceStep, hno]
      rw [runCardSequence, hstep]
      simpa using ih (fun x hx => hhalf x (List.mem_cons_of_mem o hx))

/-- Claim C5 (amended): the runtime keeps a single sticky per-section
flag (not per-card) and consults no per-card pixel threshold: the
sequence fires on a tick exactly when the section's opacity has
reached 1 and the flag is unset, the flag after a tick is set exactly
when opacity stayed at or above 0.5 and either the flag was already
set or opacity reached 1 (so falling below half opacity resets it, and
the sequence can replay); consequently, over any trace of tick
opacities that contains a full-opacity tick and never falls below 0.5,
the whole card sequence (whose cards then reveal in index order via
fixed CSS animation delays) is triggered exactly once. -/
theorem cardSequence_sticky_flag (trace : List ℚ)
    (hhalf : ∀ o ∈ trace, 1 / 2 ≤ o) (hfull : ∃ o ∈ trace, 1 ≤ o) :
    (∀ (flag : Bool) (o : ℚ),
      (cardSequenceStep flag o).2 = (decide (1 ≤ o) && !flag)) ∧
    (∀ (flag : Bool) (o : ℚ),
      (cardSequenceStep flag o).1 =
        ((decide (1 ≤ o) || flag) && !decide (o < 0.5))) ∧
    runCardSequence false trace = 1 := by
  refine ⟨fun flag o => rfl, ?_, ?_⟩
  · intro flag o
    by_cases h1 : (1 : ℚ) ≤ o <;> by_cases h2 : o < 0.5 <;>
      cases flag <;> simp [cardSequenceStep, h1, h2]
  · induction trace with
    | nil => exact absurd hfull (by simp)
    | cons o rest ih =>
        have ho : (1 : ℚ) / 2 ≤ o := hhalf o (List.mem_cons_self o rest)
        by_cases h1 : (1 : ℚ) ≤ o
        · have hno : ¬ o < (0.5 : ℚ) := by
            rw [show (0.5 : ℚ) = 1 / 2 by norm_num]
            exact not_lt.mpr (by linarith)
          have hstep : cardSequenceStep false o = (true, true) := by
            simp [cardSequenceStep, h1, hno]
          rw [runCardSequence, hstep]
          simp [runCardSequence_of_triggered rest
            (fun x hx => hhalf x (List.mem_cons_of_mem o hx))]
        · have hstep : cardSequenceStep false o = (false, false) := by
            simp [cardSequenceStep, h1]
          rw [runCardSequence, hstep]
          have hrest : ∃ x ∈ rest, (1 : ℚ) ≤ x := by
            rcases hfull with ⟨x, hx, hx1⟩
            rcases List.mem_cons.mp hx with rfl | hxr
            · exact absurd hx1 h1
            · exact ⟨x, hxr, hx1⟩
          simpa using ih (fun x hx => hhalf x (List.mem_cons_of_mem o hx)) hrest

/-- Witness for the amended C5 over the concrete opacity trace
`[3/5, 1, 1, 7/10]`. -/
theorem cardSequence_sticky_flag_witness :
    (∀ o ∈ [(3 : ℚ) / 5, 1, 1, 7 / 10], 1 / 2 ≤ o) ∧
    (∃ o ∈ [(3 : ℚ) / 5, 1, 1, 7 / 10], 1 ≤ o) ∧
    runCardSequence false [(3 : ℚ) / 5, 1, 1, 7 / 10] = 1 :=
  ⟨by norm_num, by norm_num,
    (cardSequence_sticky_flag [(3 : ℚ) / 5, 1, 1, 7 / 10]
      (by norm_num) (by norm_num)).2.2⟩

theorem countZErrors_append (i j : ℕ) (es fs : List SchemaError) :
    countZErrors i j (es ++ fs) = countZErrors i j es + countZErrors i j fs := by
  simp [countZErrors, List.filter_append]

theorem countZErrors_validateLayer (i j s l : ℕ) (layer : Layer) :
    countZErrors i j (validateLayer s l layer) =
      if i = s ∧ j = l ∧ layerZBad layer = true then 1 else 0 := by
  unfold validateLayer
  rw [countZErrors_append, countZErrors_append, countZErrors_append]
  have h2 : countZErrors i j
      (if layer.type == "background" || layer.type == "image" || layer.type == "custom"
        then [] else [.invalidLayerType s l layer.type]) = 0 := by
    split <;> simp [countZErrors, isZErrorAt]
  have h3 : countZErrors i j
      (if layer.type == "image" && falsyStr layer.src then
        [.imageMissingSrc s l] else []) = 0 := by
    split <;> simp [countZErrors, isZErrorAt]
  have h4 : countZErrors i j
      (if layer.type == "custom" && falsyStr layer.renderer then
        [.customMissingRenderer s l] else []) = 0 := by
    split <;> simp [countZErrors, isZErrorAt]
  rw [h2, h3, h4]
  by_cases hb : layerZBad layer = true
  · by_cases hi : i = s <;> by_cases hj : j = l
    · subst hi; subst hj
      simp [hb, countZErrors, isZErrorAt, List.filter]
    · subst hi
      have hlj : (l == j) = false := beq_eq_false_iff_ne.mpr (fun h => hj h.symm)
      simp [hb, hj, countZErrors, isZErrorAt, List.filter, hlj]
    · have hsi : (s == i) = false := beq_eq_false_iff_ne.mpr (fun h => hi h.symm)
      simp [hb, hi, countZErrors, isZErrorAt, List.filter, hsi]
    · have hsi : (s == i) = false := beq_eq_false_iff_ne.mpr (fun h => hi h.symm)
      simp [hb, hi, countZErrors, isZErrorAt, List.filter, hsi]
  · simp [hb, countZErrors]

theorem countZErrors_validateLayers (i j s l0 : ℕ) (layers : List Layer) :
    countZErrors i j (validateLayers s l0 layers) =
      if i = s ∧ l0 ≤ j ∧ (match layers.get? (j - l0) with
          | some layer => layerZBad layer
          | none => false) = true then 1 else 0 := by
  induction layers generalizing l0 with
  | nil => simp [validateLayers, countZErrors]
  | cons layer rest ih =>
      rw [validateLayers, countZErrors_append, countZErrors_validateLayer, ih]
      by_cases hi : i = s
      · rcases Nat.lt_trichotomy j l0 with hjl | hjl | hjl
        · have h1 : ¬ j = l0 := by omega
          have h2 : ¬ l0 + 1 ≤ j := by omega
          have h3 : ¬ l0 ≤ j := by omega
          simp [hi, h1, h2, h3]
        · subst hjl
          have h2 : ¬ j + 1 ≤ j := by omega
          simp [hi, h2, Nat.sub_self]
        · have h1 : ¬ j = l0 := by omega
          have h2 : l0 + 1 ≤ j := by omega
          have h3 : l0 ≤ j := by omega
          have h4 : j - l0 = (j - (l0 + 1)) + 1 := by omega
          simp [hi, h1, h2, h3, h4]
      · simp [hi]

theorem countZErrors_validateSection (i j s : ℕ) (sec : Section) :
    countZErrors i j (validateSection s sec) =
      if i = s ∧ (match sec.layers with
          | some layers =>
              (match layers.get? j with
                | some layer => layerZBad layer
                | none => false)
          | none => false) = true then 1 else 0 := by
  unfold validateSection
  rw [countZErrors_append, countZErrors_append, countZErrors_append, countZErrors_append]
  have h1 : countZErrors i j (if falsyStr sec.id then [.missingId s] else []) = 0 := by
    split <;> simp [countZErrors, isZErrorAt]
  have h2 : countZErrors i j (if sec.hero.isNone then [.missingHeroConfig s] else []) = 0 := by
    split <;> simp [countZErrors, isZErrorAt]
  have h3 : countZErrors i j (if heroTextFalsy sec.hero then [.heroMissingText s] else []) = 0 := by
    split <;> simp [countZErrors, isZErrorAt]
  have h4 : countZErrors i j (if sec.layers.isNone then [.missingLayersArray s] else []) = 0 := by
    split <;> simp [countZErrors, isZErrorAt]
  rw [h1, h2, h3, h4]
  cases hsec : sec.layers with
  | none => simp [countZErrors]
  | some layers =>
      rw [countZErrors_validateLayers]
      simp

theorem countZErrors_validateSections (i j s0 : ℕ) (sections : List Section) :
    countZErrors i j (validateSections s0 sections) =
      if s0 ≤ i ∧ badZAt sections (i - s0) j = true then 1 else 0 := by
  induction sections generalizing s0 with
  | nil => simp [validateSections, countZErrors, badZAt, layerAt]
  | cons sec rest ih =>
      rw [validateSections, countZErrors_append, countZErrors_validateSection, ih]
      rcases Nat.lt_trichotomy i s0 with his | his | his
      · have h1 : ¬ i = s0 := by omega
        have h2 : ¬ s0 + 1 ≤ i := by omega
        have h3 : ¬ s0 ≤ i := by omega
        simp [h1, h2, h3]
      · subst his
        have h2 : ¬ i + 1 ≤ i := by omega
        cases hsl : sec.layers with
        | none => simp [h2, Nat.sub_self, badZAt, layerAt, hsl]
        | some layers => simp [h2, Nat.sub_self, badZAt, layerAt, hsl]
      · have h1 : ¬ i = s0 := by omega
        have h2 : s0 + 1 ≤ i := by omega
        have h3 : s0 ≤ i := by omega
        have h4 : i - s0 = (i - (s0 + 1)) + 1 := by omega
        simp [h1, h2, h3, h4, badZAt, layerAt]

theorem countZErrors_validateSchema (schema : SectionSchema) (sections : List Section)
    (hs : schema.sections = some sections) (i j : ℕ) :
    countZErrors i j (validateSchema schema).errors =
      if badZAt sections i j = true then 1 else 0 := by
  simp only [validateSchema, hs]
  rw [countZErrors_validateSections]
  simp

/-- Claim C1: any layer whose `z` exceeds 50 makes `validateSchema`
return `valid = false` and contributes exactly one depth-ceiling error
carrying that layer's section and layer indices; conversely a scene
accepted as valid contains no layer with a declared depth over 50. -/
theorem validateSchema_depth_ceiling (schema : SectionSchema) (sections : List Section)
    (hs : schema.sections = some sections) :
    (∀ i j, badZAt sections i j = true →
      (validateSchema schema).valid = false ∧
      countZErrors i j (validateSchema schema).errors = 1) ∧
    ((validateSchema schema).valid = true →
      ∀ s ∈ sections, ∀ layers, s.layers = some layers →
        ∀ layer ∈ layers, ∀ z, layer.z = some z → z ≤ 50) := by
  constructor
  · intro i j hbad
    have hc := countZErrors_validateSchema schema sections hs i j
    rw [hbad] at hc
    simp at hc
    refine ⟨?_, hc⟩
    simp only [validateSchema, hs]
    by_contra hval
    simp only [Bool.not_eq_false, List.isEmpty_iff] at hval
    simp only [validateSchema, hs] at hc
    rw [hval] at hc
    simp [countZErrors] at hc
  · intro hvalid s hmem layers hlayers layer hlmem z hz
    by_contra hgt
    push_neg at hgt
    obtain ⟨i, hi⟩ := List.mem_iff_get?.mp hmem
    obtain ⟨j, hj⟩ := List.mem_iff_get?.mp hlmem
    have hi2 : sections[i]? = some s := by
      rw [← List.get?_eq_getElem?]
      exact hi
    have hj2 : layers[j]? = some layer := by
      rw [← List.get?_eq_getElem?]
      exact hj
    have hbad : badZAt sections i j = true := by
      simp [badZAt, layerAt, hi2, hlayers, hj2, layerZBad, hz, hgt]
    have hc := countZErrors_validateSchema schema sections hs i j
    rw [hbad] at hc
    simp at hc
    simp only [validateSchema, hs] at hvalid hc
    simp only [List.isEmpty_iff] at hvalid
    rw [hvalid] at hc
    simp [countZErrors] at hc

/-- Witness for C1 on a concrete scene whose only layer declares
`z = 60`. -/
theorem validateSchema_depth_ceiling_witness :
    demoBadSchema.sections = some demoBadSections ∧
    badZAt demoBadSections 0 0 = true ∧
    ((validateSchema demoBadSchema).valid = false ∧
      countZErrors 0 0 (validateSchema demoBadSchema).errors = 1) :=
  ⟨rfl, by decide,
    (validateSchema_depth_ceiling demoBadSchema demoBadSections rfl).1 0 0 (by decide)⟩

/-- Claim C9: the depth-ceiling check fires only when a layer's `z`
field is present and greater than 50 — a layer that omits `z` never
produces a depth error — and a scene can be accepted as `valid = true`
while containing a layer with no declared depth (the concrete
`noDepthSchema`). -/
theorem validateSchema_z_optional (schema : SectionSchema) (sections : List Section)
    (hs : schema.sections = some sections) :
    (∀ i j layer, layerAt sections i j = some layer → layer.z = none →
      countZErrors i j (validateSchema schema).errors = 0) ∧
    validateSchema noDepthSchema = ⟨true, []⟩ := by
  constructor
  · intro i j layer hlayer hz
    have hbad : badZAt sections i j = false := by
      simp [badZAt, hlayer, layerZBad, hz]
    have hc := countZErrors_validateSchema schema sections hs i j
    rw [hbad] at hc
    simpa using hc
  · decide

/-- Witness for C9: in `noDepthSchema`, the layer at section 0 /
layer 0 omits `z` and contributes no depth error. -/
theorem validateSchema_z_optional_witness :
    layerAt noDepthSections 0 0 = some noDepthLayer ∧
    noDepthLayer.z = none ∧
    countZErrors 0 0 (validateSchema noDepthSchema).errors = 0 :=
  ⟨rfl, rfl,
    (validateSchema_z_optional noDepthSchema noDepthSections rfl).1 0 0 noDepthLayer
      rfl rfl⟩

/-- Claim C8: `boxesOverlap` returns true exactly when the boxes are
not mutually exclusive on either axis, i.e.
`NOT (right1 < left2 OR left1 > right2 OR bottom1 < top2 OR top1 > bottom2)`. -/
theorem boxesOverlap_iff (box1 box2 : Box) :
    boxesOverlap box1 box2 = true ↔
      ¬(box1.right < box2.left ∨ box1.left > box2.right ∨
        box1.bottom < box2.top ∨ box1.top > box2.bottom) := by
  simp [boxesOverlap, not_or]
  tauto

theorem countOverlapWarnings_append (i : ℕ) (ws vs : List OverlapWarning) :
    countOverlapWarnings i (ws ++ vs) =
      countOverlapWarnings i ws + countOverlapWarnings i vs := by
  simp [countOverlapWarnings, List.filter_append]

theorem countOverlapWarnings_layerWarnings (w : Viewport) (heroBounds : Box)
    (i l : ℕ) (layer : Layer) :
    countOverlapWarnings i (layerWarnings w heroBounds l layer) =
      if i = l ∧ overlapFires w heroBounds layer = true then 1 else 0 := by
  unfold layerWarnings overlapFires
  rw [countOverlapWarnings_append]
  have h2 : countOverlapWarnings i
      (if layer.type == "custom" then [.customUnchecked l layer.renderer] else []) = 0 := by
    split <;> simp [countOverlapWarnings, isOverlapWarningAt]
  rw [h2]
  by_cases htype : layer.type == "image"
  · cases hpos : layer.position with
    | none => simp [htype, hpos, countOverlapWarnings]
    | some position =>
        cases hib : calculateImageBounds w position layer.size with
        | none => simp [htype, hpos, hib, countOverlapWarnings]
        | some imageBounds =>
            by_cases hov : boxesOverlap heroBounds imageBounds = true
            · by_cases hi : i = l
              · subst hi
                simp [htype, hpos, hib, hov, countOverlapWarnings,
                  isOverlapWarningAt, List.filter]
              · have hli : (l == i) = false :=
                  beq_eq_false_iff_ne.mpr (fun h => hi h.symm)
                simp [htype, hpos, hib, hov, hi, countOverlapWarnings,
                  isOverlapWarningAt, List.filter, hli]
            · simp [htype, hpos, hib, hov, countOverlapWarnings]
  · simp [htype, countOverlapWarnings]

theorem countOverlapWarnings_sectionWarnings (w : Viewport) (heroBounds : Box)
    (i l0 : ℕ) (layers : List Layer) :
    countOverlapWarnings i (sectionWarnings w heroBounds l0 layers) =
      if l0 ≤ i ∧ (match layers.get? (i - l0) with
          | some layer => overlapFires w heroBounds layer
          | none => false) = true then 1 else 0 := by
  induction layers generalizing l0 with
  | nil => simp [sectionWarnings, countOverlapWarnings]
  | cons layer rest ih =>
      rw [sectionWarnings, countOverlapWarnings_append,
        countOverlapWarnings_layerWarnings, ih]
      rcases Nat.lt_trichotomy i l0 with hil | hil | hil
      · have h1 : ¬ i = l0 := by omega
        have h2 : ¬ l0 + 1 ≤ i := by omega
        have h3 : ¬ l0 ≤ i := by omega
        simp [h1, h2, h3]
      · subst hil
        have h2 : ¬ i + 1 ≤ i := by omega
        simp [h2, Nat.sub_self]
      · have h1 : ¬ i = l0 := by omega
        have h2 : l0 + 1 ≤ i := by omega
        have h3 : l0 ≤ i := by omega
        have h4 : i - l0 = (i - (l0 + 1)) + 1 := by omega
        simp [h1, h2, h3, h4]

/-- Claim C10: `calculateImageBounds` returns `null` exactly when the
position has no resolvable vertical edge (neither `top` nor `bottom`)
or no resolvable horizontal edge (neither `left` nor `right`), and
`validateHeroOverlap` emits an overlap warning for layer `i` (at most
one) exactly when that layer is an image with a declared position
whose bounds resolve and whose derived box intersects the hero box —
a layer with unresolvable bounds is silently skipped. -/
theorem validateHeroOverlap_warning_iff (w : Viewport) (s : Section)
    (hero : HeroConfig) (layers : List Layer)
    (hh : s.hero = some hero) (hl : s.layers = some layers) :
    (∀ position size,
      calculateImageBounds w position size = none ↔
        ((position.top = none ∧ position.bottom = none) ∨
          (position.left = none ∧ position.right = none))) ∧
    (∀ r, validateHeroOverlap w s = some r → ∀ i,
      countOverlapWarnings i r.2 ≤ 1 ∧
      (countOverlapWarnings i r.2 = 1 ↔
        ∃ layer, layers.get? i = some layer ∧ layer.type = "image" ∧
          ∃ position, layer.position = some position ∧
            ∃ imageBounds,
              calculateImageBounds w position layer.size = some imageBounds ∧
              boxesOverlap (calculateHeroBounds w hero) imageBounds = true)) := by
  constructor
  · intro position size
    obtain ⟨t, l, r, b⟩ := position
    cases t <;> cases l <;> cases r <;> cases b <;>
      simp [calculateImageBounds]
  · intro r hr i
    simp only [validateHeroOverlap, hh, hl] at hr
    injection hr with hr
    subst hr
    have hc := countOverlapWarnings_sectionWarnings w (calculateHeroBounds w hero)
      i 0 layers
    simp only [Nat.zero_le, Nat.sub_zero, true_and] at hc
    constructor
    · rw [hc]
      split <;> simp
    · rw [hc]
      cases hget : layers.get? i with
      | none => simp
      | some layer =>
          simp only []
          by_cases htype : layer.type = "image"
          · cases hpos : layer.position with
            | none => simp [overlapFires, hpos]
            | some position =>
                cases hib : calculateImageBounds w position layer.size with
                | none => simp [overlapFires, hpos, hib]
                | some imageBounds =>
                    by_cases hov :
                        boxesOverlap (calculateHeroBounds w hero) imageBounds = true
                    · simp [overlapFires, htype, hpos, hib, hov]
                    · simp [overlapFires, hpos, hib, hov]
          · simp [overlapFires, htype]

/-- Witness for C10: the demo section's hero and layers are present,
and the null-bounds characterization instantiated at the demo
position and size. -/
theorem validateHeroOverlap_warning_iff_witness :
    demoOverlapSection.hero = some demoHero ∧
    demoOverlapSection.layers = some demoOverlapLayers ∧
    (calculateImageBounds demoViewport demoPosition (some demoSize) = none ↔
      ((demoPosition.top = none ∧ demoPosition.bottom = none) ∨
        (demoPosition.left = none ∧ demoPosition.right = none))) :=
  ⟨rfl, rfl,
    (validateHeroOverlap_warning_iff demoViewport demoOverlapSection demoHero
      demoOverlapLayers rfl rfl).1 demoPosition (some demoSize)⟩

/-- Sanity example: on the demo section the centered image overlaps
the hero zone and produces exactly one overlap warning for layer 0. -/
theorem demoOverlap_warning_fires :
    countOverlapWarnings 0
      (sectionWarnings demoViewport (calculateHeroBounds demoViewport demoHero)
        0 demoOverlapLayers) = 1 := by
  rw [countOverlapWarnings_sectionWarnings]
  have hlc : lineCount ("Hello") = 1 := by decide
  have hhb : calculateHeroBounds demoViewport demoHero =
      ⟨324, 0, 476, 1000, 1000, 152⟩ := by
    simp only [calculateHeroBounds, estimatedFontSize, demoViewport, demoHero]
    norm_num [min_def, hlc]
  have hib : calculateImageBounds demoViewport demoPosition (some demoSize) =
      some ⟨320, 500, 420, 750, 250, 100⟩ := by
    simp only [calculateImageBounds, parsePosition, demoPosition, demoSize,
      demoViewport, Option.map_some, Option.bind_some]
    norm_num
  have hov : boxesOverlap (⟨324, 0, 476, 1000, 1000, 152⟩ : Box)
      ⟨320, 500, 420, 750, 250, 100⟩ = true := by
    norm_num [boxesOverlap]
  simp [demoOverlapLayers, overlapFires, hhb, hib, hov]

end Jettypod

